import Mathlib

/-!
Verification development for the CodeMage plugin-generation pipeline
(astrbot_plugin_CodeMage).  The Python modules under scrutiny are embedded
shallowly: pure logic becomes Lean functions, external collaborators
(the Python parser `ast.parse`, the `re` regex engine, subprocess tool
output, the LLM, the clock, the file system) become explicit inputs.
-/

namespace CodeMage

/-! ## A model of the fragment of the Python AST inspected by the rule engine

`code_auditor.AstrBotPluginAuditor._audit_astrbot_rules` walks the tree
produced by `ast.parse` and only ever looks at: `ImportFrom` / `Import`
statements, `ClassDef` bases, `FunctionDef` argument counts and decorator
expressions, and the presence of `Yield` / `YieldFrom` nodes inside a
function body.  The model below keeps exactly those shapes; every other
node is `otherStmt`.  A `yieldStmt` stands for any statement whose
expression tree contains `ast.Yield` or `ast.YieldFrom`. -/

inductive PyExpr where
  | nameE (id : String)
  | attributeE (value : PyExpr) (attr : String)
  | callE (func : PyExpr)
  | otherE
  deriving DecidableEq, Repr

inductive PyStmt where
  | importFrom (module : String) (names : List String)
  | importPlain (names : List String)
  | classDef (name : String) (bases : List PyExpr) (body : List PyStmt)
  | functionDef (name : String) (argCount : Nat) (decorators : List PyExpr)
      (body : List PyStmt)
  | yieldStmt
  | otherStmt

/-- A parsed module: `ast.parse` gives a `Module` holding a statement list. -/
abbrev PyModule := List PyStmt

/-- Python's `str.startswith`, computed on the character lists. -/
def strStartsWith (s p : String) : Bool := p.data.isPrefixOf s.data

def charListContainsSub (l sub : List Char) : Bool :=
  if sub.isPrefixOf l then true
  else
    match l with
    | [] => false
    | _ :: t => charListContainsSub t sub

/-- Python's `sub in s` substring test, computed on the character lists. -/
def strContains (s sub : String) : Bool := charListContainsSub s.data sub.data

mutual

/-- `ast.walk(node)`: the node itself followed by all of its descendants
(the rule engine only uses membership facts, so the exact BFS order of the
Python generator is not material; this is a pre-order flattening). -/
def walkStmt : PyStmt → List PyStmt
  | .classDef n b body => .classDef n b body :: walkStmts body
  | .functionDef n a d body => .functionDef n a d body :: walkStmts body
  | s => [s]
  termination_by structural s => s

def walkStmts : List PyStmt → List PyStmt
  | [] => []
  | s :: rest => walkStmt s ++ walkStmts rest
  termination_by structural l => l

end

/-! ## code_auditor.py — `AstrBotPluginAuditor` -/

namespace CodeAuditor

structure ToolReport where
  name : String
  available : Bool
  issues : List String
  suggestions : List String
  deriving DecidableEq, Repr

structure AuditResult where
  approved : Bool
  satisfaction_score : Int
  reason : String
  issues : List String
  suggestions : List String
  deriving DecidableEq, Repr

/-- `@filter.xxx(...)` decorator in `ast.Call` form: returns the hook name. -/
def decFilterCallAttr : PyExpr → Option String
  | .callE (.attributeE (.nameE f) attr) => if f = "filter" then some attr else none
  | _ => none

/-- `@filter.xxx` decorator in bare `ast.Attribute` form. -/
def isFilterAttributeDec : PyExpr → Bool
  | .attributeE (.nameE f) _ => f == "filter"
  | _ => false

def disallowYieldHooks : List String :=
  ["on_llm_request", "on_llm_response", "on_decorating_result", "after_message_sent"]

def syntaxErrorMessage (e : String) : String := s!"代码存在语法错误: {e}"

def isYieldStmt : PyStmt → Bool
  | .yieldStmt => true
  | _ => false

/-- Does a function body (recursively) contain a yield statement?  Mirrors
`any(isinstance(n, (ast.Yield, ast.YieldFrom)) for n in ast.walk(node))`. -/
def bodyHasYield (body : List PyStmt) : Bool :=
  (walkStmts body).any isYieldStmt

/-- Check 4 of `_audit_astrbot_rules`, for one `FunctionDef` node: the
per-decorator loop collecting arity violations for the two LLM hooks and
the `is_llm_hook` flag, followed by the yield check. -/
def hookChecksOfFunction (fname : String) (argCount : Nat) (decorators : List PyExpr)
    (body : List PyStmt) : List String × List String :=
  let step := decorators.foldl
    (fun (acc : List String × List String × Bool) dec =>
      match decFilterCallAttr dec with
      | some attr =>
        let acc :=
          if disallowYieldHooks.contains attr then (acc.1, acc.2.1, true) else acc
        if (attr = "on_llm_request" ∨ attr = "on_llm_response") ∧ argCount < 3 then
          (acc.1 ++ [s!"{attr} 钩子函数参数必须为 (self, event, xxx)，当前参数个数为 {argCount}"],
           acc.2.1 ++ [s!"修改 {attr} 定义，例如：async def {fname}(self, event: AstrMessageEvent, obj): ..."],
           acc.2.2)
        else acc
      | none => acc)
    ([], [], false)
  let critical := step.1
  let suggestions := step.2.1
  let is_llm_hook := step.2.2
  if is_llm_hook ∧ bodyHasYield body then
    (critical ++ [s!"在 {fname} 中检测到 yield 语句。该钩子中禁止使用 yield，请改用 await event.send(...)"],
     suggestions ++ [s!"将 {fname} 内的 yield event.xxx_result(...) 改为 await event.send(event.xxx_result(...))"])
  else (critical, suggestions)

def dangerousPatterns : List String :=
  ["eval\\s*\\(", "exec\\s*\\(", "__import__\\s*\\(", "subprocess\\.", "os\\.system\\s*\\("]

/-- `AstrBotPluginAuditor._audit_astrbot_rules`.

Inputs standing for external collaborators:
* `parseResult` — the outcome of `ast.parse(code)`: the parsed module, or
  the stringified `SyntaxError`;
* `reMatch pat` — whether `re.search(pat, code)` finds a match (checks 7
  and 8 run the stdlib regex engine over the raw source text).

Returns `(critical_issues, issues, suggestions)` exactly as the source. -/
def audit_astrbot_rules (parseResult : Except String PyModule)
    (reMatch : String → Bool) : List String × List String × List String :=
  match parseResult with
  | .error e => ([syntaxErrorMessage e], [], [])
  | .ok tree =>
    let walked := walkStmts tree
    -- 1) logging discipline
    let imports_logger := walked.any (fun s =>
      match s with
      | .importFrom mod names => mod == "astrbot.api" && names.contains "logger"
      | _ => false)
    let uses_logging_module := walked.any (fun s =>
      match s with
      | .importFrom mod _ => strStartsWith mod "logging"
      | .importPlain names =>
          names.any (fun a => a == "logging" || strStartsWith a "logging.")
      | _ => false)
    let uses_loguru := walked.any (fun s =>
      match s with
      | .importPlain names => names.any (fun a => strStartsWith a "loguru")
      | _ => false)
    let critical : List String := []
    let suggestions : List String := []
    let critical := if ¬imports_logger then
        critical ++ ["必须使用 \"from astrbot.api import logger\" 获取日志对象"] else critical
    let suggestions := if ¬imports_logger then
        suggestions ++ ["在文件顶部添加: from astrbot.api import logger"] else suggestions
    let critical := if uses_logging_module then
        critical ++ ["禁止使用内置 logging 模块，请改用 astrbot.api.logger"] else critical
    let suggestions := if uses_logging_module then
        suggestions ++ ["将所有 logging.* 调用替换为 logger.*，并确保已从 astrbot.api 导入 logger"] else suggestions
    let critical := if uses_loguru then
        critical ++ ["禁止使用第三方日志库 loguru，请改用 astrbot.api.logger"] else critical
    let suggestions := if uses_loguru then
        suggestions ++ ["移除 loguru 相关代码，改用 astrbot.api.logger"] else suggestions
    -- 2) filter decorator import check
    let has_filter_import := walked.any (fun s =>
      match s with
      | .importFrom mod names => mod == "astrbot.api.event" && names.contains "filter"
      | _ => false)
    let uses_filter_decorator := walked.any (fun s =>
      match s with
      | .functionDef _ _ decs _ =>
          decs.any (fun d => isFilterAttributeDec d || (decFilterCallAttr d).isSome)
      | _ => false)
    let critical := if uses_filter_decorator ∧ ¬has_filter_import then
        critical ++ ["检测到使用 @filter 装饰器，但未正确导入：from astrbot.api.event import filter"] else critical
    let suggestions := if uses_filter_decorator ∧ ¬has_filter_import then
        suggestions ++ ["请添加: from astrbot.api.event import filter"] else suggestions
    -- 3) at least one class inheriting Star
    let has_star_subclass := walked.any (fun s =>
      match s with
      | .classDef _ bases _ => bases.any (fun b =>
          match b with
          | .nameE id => id == "Star"
          | .attributeE _ attr => attr == "Star"
          | _ => false)
      | _ => false)
    let critical := if ¬has_star_subclass then
        critical ++ ["未找到继承自 Star 的插件类。请定义 class MyPlugin(Star): ..."] else critical
    -- 4) LLM hook signature and yield restrictions
    let hookAcc := walked.foldl
      (fun (acc : List String × List String) s =>
        match s with
        | .functionDef fname argc decs body =>
            let r := hookChecksOfFunction fname argc decs body
            (acc.1 ++ r.1, acc.2 ++ r.2)
        | _ => acc)
      ([], [])
    let critical := critical ++ hookAcc.1
    let suggestions := suggestions ++ hookAcc.2
    -- 5) @filter.llm_tool and @filter.permission_type are mutually exclusive
    let critical := critical ++ (walked.foldl
      (fun (acc : List String) s =>
        match s with
        | .functionDef _ _ decs _ =>
            let has_llm_tool := decs.any (fun d => decFilterCallAttr d == some "llm_tool")
            let has_perm_type := decs.any (fun d => decFilterCallAttr d == some "permission_type")
            if has_llm_tool ∧ has_perm_type then
              acc ++ ["@filter.llm_tool 装饰的方法上不支持再使用 @filter.permission_type 进行权限控制"]
            else acc
        | _ => acc)
      [])
    -- 6) event listener signature check
    let listenerAcc := walked.foldl
      (fun (acc : List String × List String) s =>
        match s with
        | .functionDef fname argc decs _ =>
            let deco_names := decs.filterMap decFilterCallAttr
            if decs.any (fun d => (decFilterCallAttr d).isSome)
                ∧ ¬deco_names.contains "on_astrbot_loaded" ∧ argc < 2 then
              (acc.1 ++ [s!"事件监听器 {fname} 缺少 event 参数，应为 (self, event, ...)"],
               acc.2 ++ [s!"修改 {fname} 签名为 (self, event: AstrMessageEvent, ...)"])
            else acc
        | _ => acc)
      ([], [])
    let issues : List String := listenerAcc.1
    let suggestions := suggestions ++ listenerAcc.2
    -- 7) requests library is banned
    let critical := if reMatch "\\bimport\\s+requests\\b|\\bfrom\\s+requests\\s+import\\b" then
        critical ++ ["检测到使用 requests 库。请改用 aiohttp 或 httpx 等异步库"] else critical
    let suggestions := if reMatch "\\bimport\\s+requests\\b|\\bfrom\\s+requests\\s+import\\b" then
        suggestions ++ ["示例：使用 aiohttp.ClientSession 进行异步 HTTP 请求"] else suggestions
    -- 8) dangerous API calls
    let critical := critical ++ (dangerousPatterns.foldl
      (fun (acc : List String) pat =>
        if reMatch pat then acc ++ [s!"检测到潜在危险调用：{pat}"] else acc)
      [])
    (critical, issues, suggestions)

/-- `AstrBotPluginAuditor._score`. -/
def score (critical_cnt normal_cnt tool_issue_cnt : Nat) : Int :=
  let s : Int := 100
  let s := s - critical_cnt * 15
  let s := s - normal_cnt * 5
  let s := s - min (tool_issue_cnt * 3) 30
  max 0 (min 100 s)

/-- `AstrBotPluginAuditor._run_ruff`: the runner bails out with an
"unavailable" report before invoking anything when `shutil.which("ruff")`
is `None`; otherwise it formats the findings parsed from the tool's JSON
output (`ruffFindings` stands for that parsed list: rule code, message,
row, column). -/
def run_ruff (ruffWhich : Option String)
    (ruffFindings : List (String × String × Nat × Nat)) : ToolReport :=
  let report : ToolReport := { name := "ruff", available := ruffWhich.isSome,
                               issues := [], suggestions := [] }
  if ¬report.available then report
  else
    { report with issues := ruffFindings.map (fun f =>
        let rule := f.1
        let msg := f.2.1
        let line := f.2.2.1
        let col := f.2.2.2
        s!"[ruff {rule}] L{line}:{col} {msg}") }

/-- The aggregation half of `AstrBotPluginAuditor.audit`, applied to the
rule-engine output and the three tool reports. -/
def auditAggregate (critical normal sugg : List String)
    (ruff_r pylint_r mypy_r : ToolReport) : AuditResult :=
  let tool_issue_cnt :=
    (if ruff_r.available then ruff_r.issues.length else 0) +
    (if pylint_r.available then pylint_r.issues.length else 0) +
    (if mypy_r.available then mypy_r.issues.length else 0)
  let all_issues := critical ++ normal
  let all_suggestions := sugg
  let all_issues := all_issues ++
    (if ruff_r.available ∧ ruff_r.issues ≠ [] then ruff_r.issues.take 50 else []) ++
    (if pylint_r.available ∧ pylint_r.issues ≠ [] then pylint_r.issues.take 50 else []) ++
    (if mypy_r.available ∧ mypy_r.issues ≠ [] then mypy_r.issues.take 50 else [])
  let approved := critical.length == 0
  let sc := score critical.length normal.length tool_issue_cnt
  let reason := if approved then "通过静态审查"
                else "存在不满足 AstrBot 规范的关键问题，请修复后重试"
  { approved := approved, satisfaction_score := sc, reason := reason,
    issues := all_issues, suggestions := all_suggestions }

/-- `AstrBotPluginAuditor.audit`: rule engine then aggregation. -/
def audit (parseResult : Except String PyModule) (reMatch : String → Bool)
    (ruff_r pylint_r mypy_r : ToolReport) : AuditResult :=
  let rules := audit_astrbot_rules parseResult reMatch
  auditAggregate rules.1 rules.2.1 rules.2.2 ruff_r pylint_r mypy_r

end CodeAuditor

/-! ## code_audit.py — `AstrbotPluginAuditor.analyze_code` -/

namespace CodeAudit

structure ToolReport where
  name : String
  available : Bool
  issues : List String
  suggestions : List String
  deriving DecidableEq, Repr

structure AuditResult where
  approved : Bool
  satisfaction_score : Int
  reason : String
  issues : List String
  suggestions : List String
  deriving DecidableEq, Repr

/-- `AstrbotPluginAuditor._dedup_list`: keep the first occurrence of each
stripped, non-empty entry. -/
def dedup_list (items : List String) : List String :=
  (items.foldl
    (fun (acc : List String × List String) it =>
      let key := it.trim
      if key ≠ "" ∧ ¬acc.2.contains key then (acc.1 ++ [key], acc.2 ++ [key])
      else acc)
    ([], [])).1

/-- The scoring fold of `analyze_code` on the four reports (each external
tool issue costs 1 point, capped at 100 per tool; each AstrBot-specific
issue costs 5), before clamping. -/
def rawScore (ruff_report pylint_report mypy_report astr_report : ToolReport) : Int :=
  let s : Int := 100
  let s := s - min ruff_report.issues.length 100
  let s := s - min pylint_report.issues.length 100
  let s := s - min mypy_report.issues.length 100
  let s := s - 5 * astr_report.issues.length
  s

/-- `AstrbotPluginAuditor.analyze_code`, applied to the four gathered
reports (the subprocess runs and the regex-based AstrBot checks are the
report producers; the aggregation below is the logic under audit).
`static_threshold` is the externally configured
`static_satisfaction_threshold` (default 85). -/
def analyze_code (ruff_report pylint_report mypy_report astr_report : ToolReport)
    (static_threshold : Int) : AuditResult :=
  let issues : List String :=
    (ruff_report.issues.map (fun m => s!"[{ruff_report.name}] {m}")) ++
    (pylint_report.issues.map (fun m => s!"[{pylint_report.name}] {m}")) ++
    (mypy_report.issues.map (fun m => s!"[{mypy_report.name}] {m}"))
  let suggestions : List String :=
    ruff_report.suggestions ++ pylint_report.suggestions ++ mypy_report.suggestions
  let issues := issues ++ (astr_report.issues.map (fun m => s!"[astrbot] {m}"))
  let suggestions := suggestions ++ astr_report.suggestions
  let sc := rawScore ruff_report pylint_report mypy_report astr_report
  let sc := max 0 (min 100 sc)
  let critical := astr_report.issues.any (fun m => strContains m "[CRITICAL]")
  let approved := !critical && decide (sc ≥ static_threshold)
  let reason :=
    if critical then "AstrBot 专项校验存在关键问题"
    else if sc < static_threshold then s!"静态检查得分过低：{sc} < {static_threshold}"
    else "通过"
  let issues := dedup_list issues
  let suggestions := dedup_list suggestions
  { approved := approved, satisfaction_score := sc, reason := reason,
    issues := issues, suggestions := suggestions }

end CodeAudit

/-! ## static_audit.py — `StaticCodeAuditor.analyze` -/

namespace StaticAudit

structure Issue where
  tool : String
  code : String
  message : String
  line : Option Nat
  column : Option Nat
  severity : String
  deriving DecidableEq, Repr

structure StaticAuditResult where
  approved : Bool
  satisfaction_score : Int
  reason : String
  issues : List Issue
  suggestions : List String
  deriving DecidableEq, Repr

/-- Per-issue deduction of the scoring loop inside `analyze`. -/
def issueDelta (item : Issue) : Int :=
  if item.tool = "mypy" then (if item.severity = "error" then 12 else 6)
  else if item.tool = "pylint" then (if item.severity = "error" then 10 else 5)
  else if item.tool = "ruff" then (if item.severity = "error" then 6 else 3)
  else (if item.severity = "error" then 15 else 8)

/-- The clamped score computed by `analyze` over the collected issue list. -/
def analyzeScore (all_issues : List Issue) : Int :=
  let s := all_issues.foldl (fun (sc : Int) item => sc - issueDelta item) 100
  max 0 (min 100 s)

/-- The decision/aggregation half of `StaticCodeAuditor.analyze`, applied to
the collected issue list (AstrBot-specific checks first, then the three
tool runners, exactly as concatenated by the source). -/
def analyze (all_issues : List Issue) : StaticAuditResult :=
  let sc := analyzeScore all_issues
  let approved := decide (sc ≥ 80) &&
    !(all_issues.any (fun i => i.severity == "error" && i.tool == "astrbot"))
  let reason := if approved then "静态审查通过" else "静态审查未通过：存在需要修复的问题"
  let suggestions : List String := []
  let suggestions := if all_issues.any (fun i => i.tool == "astrbot" && i.code == "ASTR001")
    then suggestions ++ ["确保使用: from astrbot.api import logger"] else suggestions
  let suggestions := if all_issues.any (fun i => i.tool == "astrbot" && i.code == "ASTR003")
    then suggestions ++ ["确保使用: from astrbot.api.event import filter"] else suggestions
  let suggestions := if all_issues.any (fun i => i.tool == "astrbot" && i.code == "ASTR004")
    then suggestions ++ ["确保 main.py 定义继承自 Star 的插件类"] else suggestions
  let suggestions := if all_issues.any (fun i => i.tool == "astrbot" && i.code == "ASTR005")
    then suggestions ++ ["移除危险函数调用 (eval/exec/os.system/subprocess 等)"] else suggestions
  { approved := approved, satisfaction_score := sc, reason := reason,
    issues := all_issues, suggestions := suggestions }

end StaticAudit

/-! ## auditor.py — `AstrPluginAuditor` -/

namespace Auditor

structure AuditIssue where
  tool : String
  message : String
  line : Option Nat
  column : Option Nat
  deriving DecidableEq, Repr

/-- The data of a Python `SyntaxError` used by `_run_ast_checks`. -/
structure SyntaxErrInfo where
  msg : String
  lineno : Option Nat
  offset : Option Nat
  deriving DecidableEq, Repr

def astSyntaxIssue (e : SyntaxErrInfo) : AuditIssue :=
  { tool := "ast", message := s!"语法错误: {e.msg}", line := e.lineno, column := e.offset }

/-- `AstrPluginAuditor._run_ast_checks`.  The parse-failure branch is the
source, verbatim; the large convention-check body run on a successfully
parsed tree (lines 276-415, irrelevant to the parse-failure contract) is
abstracted as `okChecks`. -/
def run_ast_checks (parseResult : Except SyntaxErrInfo PyModule)
    (okChecks : PyModule → List AuditIssue × List String) :
    List AuditIssue × List String :=
  match parseResult with
  | .error e => ([astSyntaxIssue e], [])
  | .ok tree => okChecks tree

/-- The decision of `AstrPluginAuditor.audit_code` (non-`off` profile):
`passed = len(text_issues) == 0` over the AST-check issues followed by
whatever the enabled tool runners contributed. -/
def audit_code_passed (ast_issues ruff_issues pylint_issues mypy_issues : List AuditIssue) :
    Bool :=
  ((ast_issues ++ ruff_issues ++ pylint_issues ++ mypy_issues).map
    (fun i => i.message)).length == 0

end Auditor

/-! ## plugin_generator.py — `PluginGenerator` -/

namespace PluginGenerator

/-- A normalized LLM review result (output of `_normalize_review_result`). -/
structure Review where
  approved : Bool
  satisfaction_score : Int
  reason : String
  issues : List String
  suggestions : List String
  deriving DecidableEq, Repr

/-- The `while` loop of `_ensure_code_review_passed` for a finite budget
(`unlimited_retry = False`, the mode the spec's Scenario E fixes).

`reviews k` is the normalized review of the code after `k` repair calls
(`reviews 0` reviews the initial code); the LLM repair/review round trip
is the external collaborator producing that stream.  `attempt` counts the
fix-and-re-audit iterations already performed; the loop re-enters only
while the current review is unsatisfying, and breaks once
`attempt >= max_retries`. -/
def ensureLoop (reviews : Nat → Review) (satisfaction_threshold : Int)
    (max_retries : Nat) (attempt : Nat) (cur : Review) : Nat × Review :=
  if cur.satisfaction_score < satisfaction_threshold ∨ cur.approved = false then
    if _h : max_retries ≤ attempt then (attempt, cur)
    else ensureLoop reviews satisfaction_threshold max_retries (attempt + 1)
      (reviews (attempt + 1))
  else (attempt, cur)
  termination_by max_retries - attempt
  decreasing_by omega

/-- `_ensure_code_review_passed` (finite-budget mode): run the loop from
the initial review, then compute
`passed = approved and satisfaction_score >= satisfaction_threshold`.
Returns (number of fix iterations performed, final review, passed). -/
def ensure_code_review_passed (reviews : Nat → Review)
    (satisfaction_threshold : Int) (max_retries : Nat) : Nat × Review × Bool :=
  let r := ensureLoop reviews satisfaction_threshold max_retries 0 (reviews 0)
  (r.1, r.2, r.2.approved && decide (r.2.satisfaction_score ≥ satisfaction_threshold))

/-- `self.generation_status` (the mutable per-generator status dict). -/
structure GenerationStatus where
  is_generating : Bool
  current_step : Nat
  total_steps : Nat
  progress_percentage : Nat
  plugin_name : String
  start_time : String
  deriving DecidableEq, Repr

/-- `self.pending_generation`.  `metadata` is carried as an association
list standing for the JSON-serializable metadata dict, and the live
`event` reference as an opaque handle. -/
structure PendingGeneration where
  active : Bool
  metadata : List (String × String)
  markdown : String
  config_schema : String
  description : String
  event : Option Nat
  umo : String
  timestamp : String
  awaiting_confirmation : Bool
  modification_history : List String
  deriving DecidableEq, Repr

/-- The JSON record written by `_save_pending_state` — the serializable
fields only, with the live `event` reference excluded (the `json.dump` /
`json.load` round trip of Python's standard library is taken as faithful,
so persistence is modelled by this record). -/
structure SavedPendingState where
  active : Bool
  metadata : List (String × String)
  markdown : String
  config_schema : String
  description : String
  umo : String
  timestamp : String
  awaiting_confirmation : Bool
  modification_history : List String
  deriving DecidableEq, Repr

/-- `PluginGenerator._save_pending_state`: project the serializable fields. -/
def save_pending_state (p : PendingGeneration) : SavedPendingState :=
  { active := p.active, metadata := p.metadata, markdown := p.markdown,
    config_schema := p.config_schema, description := p.description,
    umo := p.umo, timestamp := p.timestamp,
    awaiting_confirmation := p.awaiting_confirmation,
    modification_history := p.modification_history }

/-- `PluginGenerator._load_pending_state`: merge the loaded record into the
in-memory dict via `update` — the `event` entry is untouched. -/
def load_pending_state (data : SavedPendingState) (p : PendingGeneration) :
    PendingGeneration :=
  { p with
    active := data.active
    metadata := data.metadata
    markdown := data.markdown
    config_schema := data.config_schema
    description := data.description
    umo := data.umo
    timestamp := data.timestamp
    awaiting_confirmation := data.awaiting_confirmation
    modification_history := data.modification_history }

/-- The `pending_generation` dict as initialized by `__init__` (and as it
stands in a fresh process before any state file is loaded). -/
def initialPendingGeneration : PendingGeneration :=
  { active := false, metadata := [], markdown := "", config_schema := "",
    description := "", event := none, umo := "", timestamp := "",
    awaiting_confirmation := false, modification_history := [] }

/-- The generator-owned mutable state touched by the claims: the status
dict, the pending-confirmation record, and the persisted state file
(`data/codemage/pending_generation.json`, `none` when absent). -/
structure GeneratorState where
  generation_status : GenerationStatus
  pending_generation : PendingGeneration
  state_file : Option SavedPendingState
  deriving DecidableEq, Repr

/-- Result dict of the generation entry points (`{success, error, ...}`). -/
structure FlowResult where
  success : Bool
  error : String := ""
  pending_confirmation : Bool := false
  plugin_name : String := ""
  plugin_path : String := ""
  satisfaction_score : Int := 0
  installed : Bool := false
  install_success : Bool := false
  install_method_used : String := ""
  deriving DecidableEq, Repr

/-- The entry of `generate_plugin_flow`: the single-flight guard.  When a
generation is already in flight the call returns a failure dict at once,
before any state is written; otherwise `is_generating` and `start_time`
are set and the body of the flow (steps 1-4, abstracted as `body`, with
`now` the formatted clock reading) runs. -/
def generate_plugin_flow_entry (s : GeneratorState) (now : String)
    (body : GeneratorState → FlowResult × GeneratorState) :
    FlowResult × GeneratorState :=
  if s.generation_status.is_generating then
    ({ success := false, error := "已有插件正在生成中，请稍后再试" }, s)
  else
    body { s with generation_status :=
      { s.generation_status with is_generating := true, start_time := now } }

/-- `PluginGenerator.clear_pending_generation`: delete the persisted state
file and reset the in-memory record.  (Defined in the source — but never
invoked by any caller in the repository.) -/
def clear_pending_generation (s : GeneratorState) : GeneratorState :=
  { s with state_file := none, pending_generation := initialPendingGeneration }

/-- `continue_plugin_generation` up to and including the rejection branch
(`approved = False`): reload the pending record from disk if the in-memory
one is inactive, fail when there is still no active task, re-attach the
caller-supplied event, then — on rejection — send the stop notice and
return a failure dict.  Nothing clears the pending record on this path. -/
def continue_plugin_generation_reject (s : GeneratorState) (event : Option Nat) :
    FlowResult × GeneratorState :=
  let s :=
    if ¬s.pending_generation.active then
      match s.state_file with
      | some data => { s with pending_generation := load_pending_state data s.pending_generation }
      | none => s
    else s
  if ¬s.pending_generation.active then
    ({ success := false, error := "没有待确认的插件生成任务" }, s)
  else
    let s := match event with
      | some e => { s with pending_generation := { s.pending_generation with event := some e } }
      | none => s
    ({ success := false, error := "用户拒绝了插件生成" }, s)

/-- Python local-variable lookup: evaluating a name with no binding raises
`NameError`. -/
def evalLocal (binding : Option String) (nm : String) : Except String String :=
  match binding with
  | some v => .ok v
  | none => .error (s!"NameError: name {nm} is not defined")

/-- The local `install_method` inside `continue_plugin_generation`: no
statement of that function ever assigns it (it is assigned only in the
separate `generate_plugin_flow`), so its binding is `none`. -/
def continue_install_method : Option String := none

/-- Likewise the local `restore_api_pwd` of `continue_plugin_generation`:
never assigned in that function. -/
def continue_restore_api_pwd : Option String := none

/-- The installation section of `continue_plugin_generation` (reached when
the user approved and the code review passed), with the exception handler
at the bottom of the function (`except Exception as e` → structured
failure dict).

External inputs: `api_enabled` is `bool(self.installer and
self.config.get("api_password_md5"))`; `file_success`/`file_path`/
`file_error` describe the `_install_via_file` outcome.  `apiLoop` stands
for the API-install `while` loop (lines 994-1070): it is unreachable in
this function, because the guard `api_enabled and install_method in
("api", "auto")` can only pass after `install_method` evaluates, which
always raises `NameError` here. -/
def continue_install_phase (apiLoop : String → Except String FlowResult)
    (api_enabled : Bool) (plugin_name : String) (satisfaction_score : Int)
    (file_success : Bool) (file_path : String) (file_error : String) : FlowResult :=
  let run : Except String FlowResult := do
    let result : FlowResult :=
      { success := true, plugin_name := plugin_name, plugin_path := "",
        satisfaction_score := satisfaction_score, installed := false }
    -- `if api_enabled and install_method in ("api", "auto"):` — Python's
    -- `and` short-circuits, so the name is only evaluated when
    -- `api_enabled` is truthy.
    let c1 ←
      if api_enabled then do
        let im ← evalLocal continue_install_method "install_method"
        pure (im == "api" || im == "auto")
      else pure false
    if c1 then do
      let im ← evalLocal continue_install_method "install_method"
      apiLoop im
    else do
      -- `api_install_success` is still False and `last_install_error` ""
      -- here, so the `return result` / `install_error` updates are skipped.
      -- `if api_enabled and install_method == "auto":` (progress notice)
      let _c2 ←
        if api_enabled then do
          let im ← evalLocal continue_install_method "install_method"
          pure (im == "auto")
        else pure false
      if file_success then
        pure { result with
               plugin_path := file_path
               installed := true
               install_success := true
               install_method_used := "file" }
      else
        pure { success := false, error := s!"插件文件安装失败：{file_error}" }
  match run with
  | .ok r => r
  | .error e => { success := false, error := e }

/-- The `finally` block of `continue_plugin_generation` evaluates
`restore_api_pwd` inside its own `try: ... except Exception: pass`; the
read always raises `NameError`, which the bare `except` swallows, leaving
the function's result untouched. -/
def continue_finally_restore : Except String String :=
  evalLocal continue_restore_api_pwd "restore_api_pwd"

end PluginGenerator

/-! ## Concrete demonstration inputs -/

/-- A minimal module satisfying every AstrBot rule: it imports the logger
from `astrbot.api` and declares a `Star` subclass, and nothing else. -/
def demoCleanModule : PyModule :=
  [.importFrom "astrbot.api" ["logger"],
   .classDef "MyPlugin" [.nameE "Star"] []]

/-- A source text in which neither the `requests` pattern nor any
dangerous-call pattern matches. -/
def noRegexMatch : String → Bool := fun _ => false

/-- A ruff report with ten style findings (an external-tool-only failure
mode: no AstrBot rule is violated, but the style score drops). -/
def demoRuffReport : CodeAuditor.ToolReport :=
  { name := "ruff", available := true,
    issues := ["i1", "i2", "i3", "i4", "i5", "i6", "i7", "i8", "i9", "i10"],
    suggestions := [] }

/-- A report for a tool whose binary was not found. -/
def unavailReport (nm : String) : CodeAuditor.ToolReport :=
  { name := nm, available := false, issues := [], suggestions := [] }

/-- A generator state with a generation already in flight (step 3 of 6). -/
def busyDemoState : PluginGenerator.GeneratorState :=
  { generation_status :=
      { is_generating := true, current_step := 3, total_steps := 6,
        progress_percentage := 50, plugin_name := "astrbot_plugin_x",
        start_time := "2026-01-01 00:00:00" },
    pending_generation := PluginGenerator.initialPendingGeneration,
    state_file := none }

/-- A pending generation task awaiting user confirmation. -/
def demoPending : PluginGenerator.PendingGeneration :=
  { active := true, metadata := [("name", "astrbot_plugin_x")],
    markdown := "# doc", config_schema := "{}", description := "a demo plugin",
    event := some 7, umo := "umo:x", timestamp := "2026-01-01 00:00:00",
    awaiting_confirmation := true, modification_history := ["edit1"] }

/-- The generator state while `demoPending` awaits confirmation, with the
pending record also persisted to disk. -/
def demoPendingState : PluginGenerator.GeneratorState :=
  { generation_status :=
      { is_generating := false, current_step := 0, total_steps := 6,
        progress_percentage := 0, plugin_name := "", start_time := "" },
    pending_generation := demoPending,
    state_file := some (PluginGenerator.save_pending_state demoPending) }

end CodeMage

namespace CodeMage

/-! ## Helper lemmas -/

theorem ensureLoop_fst_le (reviews : Nat → PluginGenerator.Review)
    (thr : Int) (maxR : Nat) :
    ∀ (k attempt : Nat) (cur : PluginGenerator.Review), maxR - attempt ≤ k →
      (PluginGenerator.ensureLoop reviews thr maxR attempt cur).1 ≤ max attempt maxR := by
  intro k
  induction k with
  | zero =>
    intro attempt cur hk
    rw [PluginGenerator.ensureLoop]
    split
    · split
      · exact le_max_left _ _
      · omega
    · exact le_max_left _ _
  | succ k ih =>
    intro attempt cur hk
    rw [PluginGenerator.ensureLoop]
    split
    · split
      · exact le_max_left _ _
      · rename_i hlt
        have h1 := ih (attempt + 1) (reviews (attempt + 1)) (by omega)
        have h2 : max (attempt + 1) maxR ≤ max attempt maxR := by omega
        exact le_trans h1 h2
    · exact le_max_left _ _

theorem issueDelta_pos (i : StaticAudit.Issue) : 3 ≤ StaticAudit.issueDelta i := by
  unfold StaticAudit.issueDelta
  split_ifs <;> norm_num

/-! ## Claims -/

/-- Claim C1.  The spec's approval rule — `approved = (no critical/hard-rule
Finding present) AND (score >= configured threshold)` with an external,
non-hardcoded threshold — is violated by `AstrBotPluginAuditor.audit`
(code_auditor.py line 414): that variant approves on
`len(critical) == 0` alone and never consults any threshold.  On a source
that passes every AstrBot rule but collects ten ruff findings, the rule
engine reports no critical finding, the score is 70, and the audit
approves — although any configured threshold above 70 (e.g. the default
85 of the code_audit.py variant; the spec allows 60 to 90+) demands
rejection.  (`StaticCodeAuditor.analyze` additionally hardcodes its
threshold to 80 instead of reading configuration.) -/
theorem C1_code_auditor_approves_below_threshold :
    (CodeAuditor.audit_astrbot_rules (.ok demoCleanModule) noRegexMatch).1 = [] ∧
    (CodeAuditor.audit (.ok demoCleanModule) noRegexMatch demoRuffReport
      (unavailReport "pylint") (unavailReport "mypy")).approved = true ∧
    (CodeAuditor.audit (.ok demoCleanModule) noRegexMatch demoRuffReport
      (unavailReport "pylint") (unavailReport "mypy")).satisfaction_score = 70 ∧
    ¬((70 : Int) ≥ 85) := by
  refine ⟨by decide, by decide, by decide, by decide⟩

/-- Claim C2.  Any Finding list containing a critical (hard-rule) Finding
yields `approved = false`, independent of the numeric score and of the
configured threshold: in `AstrBotPluginAuditor.audit` a non-empty critical
list forces rejection (for any tool reports, hence any score), including
through the full rule-engine pipeline; in
`AstrbotPluginAuditor.analyze_code` any AstrBot-check issue tagged
`[CRITICAL]` forces rejection for every threshold. -/
theorem C2_critical_finding_blocks_approval :
    (∀ (critical normal sugg : List String) (r1 r2 r3 : CodeAuditor.ToolReport),
      critical ≠ [] →
      (CodeAuditor.auditAggregate critical normal sugg r1 r2 r3).approved = false) ∧
    (∀ (parseResult : Except String PyModule) (reMatch : String → Bool)
       (r1 r2 r3 : CodeAuditor.ToolReport),
      (CodeAuditor.audit_astrbot_rules parseResult reMatch).1 ≠ [] →
      (CodeAuditor.audit parseResult reMatch r1 r2 r3).approved = false) ∧
    (∀ (r p m astr : CodeAudit.ToolReport) (thr : Int),
      astr.issues.any (fun msg => strContains msg "[CRITICAL]") = true →
      (CodeAudit.analyze_code r p m astr thr).approved = false) := by
  refine ⟨?_, ?_, ?_⟩
  · intro critical normal sugg r1 r2 r3 h
    cases critical with
    | nil => exact absurd rfl h
    | cons a t => simp [CodeAuditor.auditAggregate]
  · intro parseResult reMatch r1 r2 r3 h
    show (CodeAuditor.auditAggregate _ _ _ r1 r2 r3).approved = false
    generalize hc : (CodeAuditor.audit_astrbot_rules parseResult reMatch).1 = critical at h
    cases critical with
    | nil => exact absurd rfl h
    | cons a t => simp [CodeAuditor.auditAggregate]
  · intro r p m astr thr h
    simp [CodeAudit.analyze_code, h]

/-- Witness for C2 at concrete inputs: a one-element critical list, a
parse failure, and an AstrBot report carrying a `[CRITICAL]` issue. -/
theorem C2_critical_finding_blocks_approval_witness :
    (CodeAuditor.auditAggregate ["关键问题"] [] [] demoRuffReport
      (unavailReport "pylint") (unavailReport "mypy")).approved = false ∧
    (CodeAuditor.audit (.error "invalid syntax") noRegexMatch demoRuffReport
      (unavailReport "pylint") (unavailReport "mypy")).approved = false ∧
    (CodeAudit.analyze_code ⟨"ruff", true, [], []⟩ ⟨"pylint", true, [], []⟩
      ⟨"mypy", true, [], []⟩ ⟨"astrbot_checks", true, ["[CRITICAL] 未找到继承自 Star 的插件类"], []⟩
      85).approved = false :=
  ⟨C2_critical_finding_blocks_approval.1 ["关键问题"] [] [] _ _ _ (by decide),
   C2_critical_finding_blocks_approval.2.1 (.error "invalid syntax") noRegexMatch _ _ _ (by decide),
   C2_critical_finding_blocks_approval.2.2 _ _ _ _ 85 (by decide)⟩

/-- Claim C3.  On a source text that fails to parse, the rule engine
returns exactly one Finding — the critical syntax-error message — and
nothing else (no ordinary issues, no suggestions), and the audit decision
is rejection no matter what any tool contributes (neither variant consults
a threshold on this path).  This holds for
`AstrBotPluginAuditor._audit_astrbot_rules` / `.audit` and for
`AstrPluginAuditor._run_ast_checks` / `.audit_code`. -/
theorem C3_parse_failure_single_critical_finding :
    (∀ (e : String) (reMatch : String → Bool),
      CodeAuditor.audit_astrbot_rules (.error e) reMatch
        = ([CodeAuditor.syntaxErrorMessage e], [], [])) ∧
    (∀ (e : String) (reMatch : String → Bool) (r1 r2 r3 : CodeAuditor.ToolReport),
      (CodeAuditor.audit (.error e) reMatch r1 r2 r3).approved = false) ∧
    (∀ (e : Auditor.SyntaxErrInfo)
       (okChecks : PyModule → List Auditor.AuditIssue × List String),
      Auditor.run_ast_checks (.error e) okChecks = ([Auditor.astSyntaxIssue e], [])) ∧
    (∀ (e : Auditor.SyntaxErrInfo)
       (okChecks : PyModule → List Auditor.AuditIssue × List String)
       (ruffI pylintI mypyI : List Auditor.AuditIssue),
      Auditor.audit_code_passed (Auditor.run_ast_checks (.error e) okChecks).1
        ruffI pylintI mypyI = false) :=
  ⟨fun _ _ => rfl, fun _ _ _ _ _ => rfl, fun _ _ => rfl, fun _ _ _ _ _ => rfl⟩

/-- Claim C4.  In each scoring aggregator, appending one more Finding
never increases the score, and the final score is clamped to [0, 100]:
`AstrBotPluginAuditor._score` is antitone in each of its three counters;
`StaticCodeAuditor.analyze` is antitone under appending an issue to the
collected list; `AstrbotPluginAuditor.analyze_code` is antitone under
appending an issue to any tool report or to the AstrBot report. -/
theorem C4_score_monotone_and_clamped :
    (∀ c n t : Nat,
      CodeAuditor.score (c + 1) n t ≤ CodeAuditor.score c n t ∧
      CodeAuditor.score c (n + 1) t ≤ CodeAuditor.score c n t ∧
      CodeAuditor.score c n (t + 1) ≤ CodeAuditor.score c n t ∧
      0 ≤ CodeAuditor.score c n t ∧ CodeAuditor.score c n t ≤ 100) ∧
    (∀ (issues : List StaticAudit.Issue) (i : StaticAudit.Issue),
      StaticAudit.analyzeScore (issues ++ [i]) ≤ StaticAudit.analyzeScore issues ∧
      (StaticAudit.analyze (issues ++ [i])).satisfaction_score
        ≤ (StaticAudit.analyze issues).satisfaction_score ∧
      0 ≤ (StaticAudit.analyze issues).satisfaction_score ∧
      (StaticAudit.analyze issues).satisfaction_score ≤ 100) ∧
    (∀ (r p m astr : CodeAudit.ToolReport) (x : String) (thr : Int),
      (CodeAudit.analyze_code { r with issues := r.issues ++ [x] } p m astr thr).satisfaction_score
        ≤ (CodeAudit.analyze_code r p m astr thr).satisfaction_score ∧
      (CodeAudit.analyze_code r p m { astr with issues := astr.issues ++ [x] } thr).satisfaction_score
        ≤ (CodeAudit.analyze_code r p m astr thr).satisfaction_score ∧
      0 ≤ (CodeAudit.analyze_code r p m astr thr).satisfaction_score ∧
      (CodeAudit.analyze_code r p m astr thr).satisfaction_score ≤ 100) := by
  refine ⟨?_, ?_, ?_⟩
  · intro c n t
    simp only [CodeAuditor.score]
    push_cast
    refine ⟨by omega, by omega, ?_, by omega, by omega⟩
    have h3 : ((t : Int) + 1) * 3 = t * 3 + 3 := by ring
    omega
  · intro issues i
    have hdelta := issueDelta_pos i
    have happ : StaticAudit.analyzeScore (issues ++ [i])
        = max 0 (min 100 ((issues.foldl (fun (sc : Int) item => sc - StaticAudit.issueDelta item) 100)
            - StaticAudit.issueDelta i)) := by
      simp [StaticAudit.analyzeScore, List.foldl_append]
    have hbase : StaticAudit.analyzeScore issues
        = max 0 (min 100 (issues.foldl (fun (sc : Int) item => sc - StaticAudit.issueDelta item) 100)) := rfl
    have hscore : ∀ l : List StaticAudit.Issue,
        (StaticAudit.analyze l).satisfaction_score = StaticAudit.analyzeScore l := fun _ => rfl
    simp only [hscore, happ, hbase]
    refine ⟨by omega, by omega, by omega, by omega⟩
  · intro r p m astr x thr
    have hscore : ∀ (a b c d : CodeAudit.ToolReport) (th : Int),
        (CodeAudit.analyze_code a b c d th).satisfaction_score
          = max 0 (min 100 (CodeAudit.rawScore a b c d)) := fun _ _ _ _ _ => rfl
    simp only [hscore, CodeAudit.rawScore, List.length_append, List.length_singleton]
    push_cast
    refine ⟨by omega, by omega, by omega, by omega⟩

/-- Claim C5.  A missing tool binary degrades to an explicit skipped
report: `_run_ruff` returns `available = False` with no findings before
running anything; an unavailable report contributes nothing to the issue
list and nothing to the score penalty of `AstrBotPluginAuditor.audit`; and
the approval decision of that aggregator does not depend on the tool
reports at all, so a missing tool can never by itself block approval. -/
theorem C5_missing_tool_skipped_no_penalty :
    (∀ (findings : List (String × String × Nat × Nat)),
      CodeAuditor.run_ruff none findings
        = { name := "ruff", available := false, issues := [], suggestions := [] }) ∧
    (∀ (critical normal sugg issues suggs : List String) (p m : CodeAuditor.ToolReport),
      CodeAuditor.auditAggregate critical normal sugg
          { name := "ruff", available := false, issues := issues, suggestions := suggs } p m
        = CodeAuditor.auditAggregate critical normal sugg
          { name := "ruff", available := false, issues := [], suggestions := [] } p m) ∧
    (∀ (critical normal sugg : List String) (r1 r2 r3 r1' r2' r3' : CodeAuditor.ToolReport),
      (CodeAuditor.auditAggregate critical normal sugg r1 r2 r3).approved
        = (CodeAuditor.auditAggregate critical normal sugg r1' r2' r3').approved) := by
  refine ⟨fun _ => rfl, fun _ _ _ _ _ _ _ => ?_, fun _ _ _ _ _ _ _ _ _ => rfl⟩
  simp [CodeAuditor.auditAggregate]

/-- Claim C6.  With the finite retry budget `max_retries = 2` (unlimited
mode off), the repair loop of `_ensure_code_review_passed` performs at
most two fix-and-re-audit iterations before terminating, and its `passed`
outcome is exactly "the final review is approved and meets the
threshold" — a passing review or a reported failure, never a third
iteration. -/
theorem C6_repair_loop_at_most_two_iterations
    (reviews : Nat → PluginGenerator.Review) (thr : Int) :
    (PluginGenerator.ensure_code_review_passed reviews thr 2).1 ≤ 2 ∧
    (PluginGenerator.ensure_code_review_passed reviews thr 2).2.2
      = ((PluginGenerator.ensure_code_review_passed reviews thr 2).2.1.approved
          && decide ((PluginGenerator.ensure_code_review_passed reviews thr 2).2.1.satisfaction_score
              ≥ thr)) := by
  constructor
  · have h := ensureLoop_fst_le reviews thr 2 2 0 (reviews 0) (by omega)
    simpa [PluginGenerator.ensure_code_review_passed] using h
  · rfl

/-- Claim C7.  A generation request arriving while another generation is
in flight is rejected immediately with a failure dict, and the state —
status (current step, plugin name) and pending record alike — is returned
untouched. -/
theorem C7_second_request_rejected_state_untouched
    (s : PluginGenerator.GeneratorState) (now : String)
    (body : PluginGenerator.GeneratorState →
      PluginGenerator.FlowResult × PluginGenerator.GeneratorState)
    (h : s.generation_status.is_generating = true) :
    PluginGenerator.generate_plugin_flow_entry s now body
      = ({ success := false, error := "已有插件正在生成中，请稍后再试" }, s) := by
  simp [PluginGenerator.generate_plugin_flow_entry, h]

/-- Witness for C7: a busy generator (step 3 of 6) rejects a fresh request
and keeps its state. -/
theorem C7_second_request_rejected_state_untouched_witness :
    PluginGenerator.generate_plugin_flow_entry busyDemoState "2026-01-02 00:00:00"
        (fun s => ({ success := true }, s))
      = ({ success := false, error := "已有插件正在生成中，请稍后再试" }, busyDemoState) :=
  C7_second_request_rejected_state_untouched busyDemoState "2026-01-02 00:00:00"
    (fun s => ({ success := true }, s)) rfl

/-- Claim C8.  Persisting a pending GenerationTask and reloading it in a
fresh process restores every persisted field — active flag, metadata,
markdown, config schema, description, origin identifier (`umo`),
timestamp, awaiting-confirmation flag, modification history — while the
live event reference is excluded from the record and comes back as
`None`. -/
theorem C8_pending_state_roundtrip (p : PluginGenerator.PendingGeneration) :
    PluginGenerator.load_pending_state (PluginGenerator.save_pending_state p)
        PluginGenerator.initialPendingGeneration
      = { p with event := none } :=
  rfl

/-- Claim C9 (divergence witness).  A reject signal on an
awaiting-confirmation task returns the failure dict, but the pending
record survives: the in-memory record is still active and awaiting
confirmation, and the persisted file is still present —
`clear_pending_generation`, which would reset the record and delete the
file, is never invoked on this path (nor anywhere else in the
repository). -/
theorem C9_reject_leaves_pending_record_in_place :
    (PluginGenerator.continue_plugin_generation_reject demoPendingState (some 9)).1
      = { success := false, error := "用户拒绝了插件生成" } ∧
    (PluginGenerator.continue_plugin_generation_reject demoPendingState
      (some 9)).2.pending_generation.active = true ∧
    (PluginGenerator.continue_plugin_generation_reject demoPendingState
      (some 9)).2.pending_generation.awaiting_confirmation = true ∧
    (PluginGenerator.continue_plugin_generation_reject demoPendingState
      (some 9)).2.state_file = some (PluginGenerator.save_pending_state demoPending) ∧
    (PluginGenerator.clear_pending_generation demoPendingState).pending_generation.active
      = false ∧
    (PluginGenerator.clear_pending_generation demoPendingState).state_file = none := by
  refine ⟨by decide, by decide, by decide, by decide, by decide, by decide⟩

/-- Counterexample to C10 as stated.  When API install is not enabled
(`api_enabled` falsy — no installer or no API password), Python's
short-circuit `and` never evaluates the unassigned `install_method`, so no
`NameError` is raised; the file-install branch runs and the confirmation
path returns `success = True`, contradicting "reaching the installation
step always raises a NameError ... can never return success = true". -/
theorem C10_counterexample_file_install_succeeds :
    (PluginGenerator.continue_install_phase (fun _ => .error "") false
        "astrbot_plugin_demo" 90 true "/plugins/astrbot_plugin_demo" "").success
      = true := by
  decide

/-- Claim C10 as amended.  The locals `install_method` and
`restore_api_pwd` are indeed never assigned in
`continue_plugin_generation`; when API install is enabled
(`api_enabled = true`) the guard evaluates `install_method`, raising
`NameError`, which the outer handler converts into a structured failure —
so with API install enabled the path indeed never returns success.  The
`restore_api_pwd` read in the `finally` block always raises `NameError`,
but its bare `except: pass` swallows it (it is not converted into a
failure result). -/
theorem C10_api_enabled_always_name_error :
    (∀ (apiLoop : String → Except String PluginGenerator.FlowResult)
       (plugin_name : String) (satisfaction_score : Int)
       (file_success : Bool) (file_path file_error : String),
      PluginGenerator.continue_install_phase apiLoop true plugin_name
          satisfaction_score file_success file_path file_error
        = { success := false,
            error := "NameError: name install_method is not defined" }) ∧
    PluginGenerator.continue_finally_restore
      = .error "NameError: name restore_api_pwd is not defined" :=
  ⟨fun _ _ _ _ _ _ => rfl, rfl⟩

end CodeMage
